import Mathlib

set_option linter.unusedVariables false

/-
Verification of the ActionNetwork contact-loader module
(src/extensions/contact-loaders/actionnetwork/index.js).

The module is embedded shallowly: HTTP fetching is represented by an
explicit fetch function `String → Nat → Except String (PageBody α)`
(endpoint, page number ↦ parsed JSON body or a transport error), the
`responses` JavaScript object is an association list, promise batches are
sequences whose issuance is recorded in an event trace, and the contact
store (`campaign_contact` table) is a list of contact rows.
-/

deriving instance DecidableEq for Except

namespace AN

/-- From `const WAIT_MILLIS = 1100;`. -/
def WAIT_MILLIS : Nat := 1100

/-- From `const REQUESTS_PER_SECOND = 4;`. -/
def REQUESTS_PER_SECOND : Nat := 4

/-- Observable events of a pager run: a `setTimeoutPromise` suspension of the
given number of milliseconds, or a batch of page requests issued concurrently
through `Promise.all` (each request tagged with its endpoint and page number). -/
inductive Ev where
| wait : Nat → Ev
| batch : List (String × Nat) → Ev
deriving DecidableEq, Repr

/-- A parsed page response body: `total_pages` (absent modelled as `none`) and
the `_embedded` object, an association of keys such as `osdi:lists` to item
arrays. -/
structure PageBody (α : Type) where
  total_pages : Option Nat := none
  embedded : List (String × List α) := []
deriving DecidableEq, Repr

/-- The record returned by `getPage`: `{ item, page, pageResponse }`. -/
structure PageResult (α : Type) where
  item : String
  page : Nat
  pageResponse : PageBody α
deriving DecidableEq, Repr

/-- `getPage(item, page, organization)`: one authenticated GET; on transport
failure the error is logged, wrapped and re-thrown (modelled as `.error`). -/
def getPage (fetch : String → Nat → Except String (PageBody α))
    (item : String) (page : Nat) : Except String (PageResult α) :=
  match fetch item page with
  | .ok pageResponse => .ok ⟨item, page, pageResponse⟩
  | .error e => .error e

/-- The `responses` object of `getActionNetworkPages`: a JavaScript object
mapping keys to arrays of page bodies, as an association list. -/
abbrev Responses (α : Type) := List (String × List (PageBody α))

/-- `responses[key].push(body)`.  Pushing onto a key that was never
initialized is a JavaScript `TypeError` (`undefined.push`), modelled as an
error. -/
def dictPush (d : Responses α) (key : String) (body : PageBody α) :
    Except String (Responses α) :=
  match d with
  | [] => .error "TypeError: undefined push"
  | (k, vs) :: rest =>
    if key = k then .ok ((k, vs ++ [body]) :: rest)
    else
      match dictPush rest key body with
      | .ok rest2 => .ok ((k, vs) :: rest2)
      | .error e => .error e

/-- `responses[key]` where the key is known to be present (used by
`extractReceived`, which is only ever called on the initialized extract key). -/
def dictGet (d : Responses α) (key : String) : List (PageBody α) :=
  match d.lookup key with
  | some vs => vs
  | none => []

/-- `(response._embedded || [])["osdi:" + item] || []`. -/
def embeddedGet (body : PageBody α) (key : String) : List α :=
  match body.embedded.lookup key with
  | some xs => xs
  | none => []

/-- `extractReceived(item, responses)`: concatenate the embedded item arrays of
the accumulated pages, in page-arrival order. -/
def extractReceived (item : String) (responses : Responses α) : List α :=
  (dictGet responses item).foldl
    (fun acc response => acc ++ embeddedGet response ("osdi:" ++ item)) []

/-- `Promise.all(thisTranche.map(getPage))`: every request of the tranche is
issued; the joined result is the list of page results, or the first failure. -/
def fetchAll (fetch : String → Nat → Except String (PageBody α)) :
    List (String × Nat) → Except String (List (PageResult α))
  | [] => .ok []
  | (it, pg) :: rest =>
    match getPage fetch it pg with
    | .error e => .error e
    | .ok r =>
      match fetchAll fetch rest with
      | .error e => .error e
      | .ok rs => .ok (r :: rs)

/-- `pageResponses.forEach(p => responses[p.item].push(p.pageResponse))`. -/
def pushAll (responses : Responses α) :
    List (PageResult α) → Except String (Responses α)
  | [] => .ok responses
  | r :: rest =>
    match dictPush responses r.item r.pageResponse with
    | .error e => .error e
    | .ok responses2 => pushAll responses2 rest

/-- Successive slices `pageToDo.slice(start, start + REQUESTS_PER_SECOND)` of
the work queue, with `REQUESTS_PER_SECOND = 4`. -/
def chunksOf4 : List β → List (List β)
  | [] => []
  | [a] => [[a]]
  | [a, b] => [[a, b]]
  | [a, b, c] => [[a, b, c]]
  | a :: b :: c :: d :: rest => [a, b, c, d] :: chunksOf4 rest

/-- The `while (pageToDoStart < pageToDo.length)` loop of
`getActionNetworkPages`, one iteration per tranche.  `doWait` is the loop's
wait condition `pageToDo.length > REQUESTS_PER_SECOND - firstPagePromises.length`,
which the source evaluates on the full queue, hence is constant across
iterations.  Returns the event trace together with the final `responses`
object or the first propagated error. -/
def runTranches (fetch : String → Nat → Except String (PageBody α))
    (doWait : Bool) (responses : Responses α) :
    List (List (String × Nat)) → List Ev × Except String (Responses α)
  | [] => ([], .ok responses)
  | tranche :: rest =>
    let evs := (if doWait then [Ev.wait WAIT_MILLIS] else []) ++ [Ev.batch tranche]
    match fetchAll fetch tranche with
    | .error e => (evs, .error e)
    | .ok results =>
      match pushAll responses results with
      | .error e => (evs, .error e)
      | .ok responses2 =>
        let next := runTranches fetch doWait responses2 rest
        (evs ++ next.1, next.2)

/-- The work queue `pageToDo`: pages `2 .. pageCount` of the endpoint, in
order (empty when `pageCount` is `0` or `1`). -/
def pageQueue (endpoint : String) (pageCount : Nat) : List (String × Nat) :=
  (List.range' 2 (pageCount - 1)).map (fun i => (endpoint, i))

/-- `getActionNetworkPages(organization, endpoint, extractKey)`.  Fetches page
1, registers it under `responses[extractKey]`, reads `total_pages`, enumerates
the remaining pages, and drives the rate-limited batch loop; on success the
embedded items are extracted from `responses[extractKey]`.  The first
component is the trace of waits and concurrently issued request batches. -/
def getActionNetworkPages (fetch : String → Nat → Except String (PageBody α))
    (endpoint extractKey : String) : List Ev × Except String (List α) :=
  match getPage fetch endpoint 1 with
  | .error e => ([Ev.batch [(endpoint, 1)]], .error e)
  | .ok firstThingsResponse =>
    let responses : Responses α := [(extractKey, [firstThingsResponse.pageResponse])]
    let pageCount := firstThingsResponse.pageResponse.total_pages.getD 0
    let pageToDo := pageQueue endpoint pageCount
    -- `pageToDo.length > REQUESTS_PER_SECOND - firstPagePromises.length`,
    -- where `firstPagePromises` has length 1.
    let doWait := decide (pageToDo.length > REQUESTS_PER_SECOND - 1)
    let run := runTranches fetch doWait responses (chunksOf4 pageToDo)
    (Ev.batch [(endpoint, 1)] :: run.1,
      match run.2 with
      | .error e => .error e
      | .ok responses2 => .ok (extractReceived extractKey responses2))

/-- The batches of requests recorded in a trace, in issue order. -/
def batchesOf (t : List Ev) : List (List (String × Nat)) :=
  t.filterMap (fun e => match e with | .batch b => some b | _ => none)

/-- All page requests recorded in a trace, in issue order. -/
def reqsOf (t : List Ev) : List (String × Nat) :=
  (batchesOf t).flatten

/-- For each request batch of a trace, whether a wait immediately precedes it. -/
def waitFlags : List Ev → List Bool
  | [] => []
  | Ev.wait _ :: Ev.batch _ :: rest => true :: waitFlags rest
  | Ev.batch _ :: rest => false :: waitFlags rest
  | Ev.wait _ :: rest => waitFlags rest

/-- A raw list record fetched from the `lists` endpoint: `name`, `title`
(either possibly absent) and the `identifiers` array (absent modelled as `[]`,
matching `thing.identifiers || []`). -/
structure RawList where
  name : Option String := none
  title : Option String := none
  identifiers : List String := []
deriving DecidableEq, Repr

/-- An output record of `getContactLists`: `{ name, identifier }`. -/
structure ListChoice where
  name : String
  identifier : String
deriving DecidableEq, Repr

/-- Character-list prefix test (building block of the regex search). -/
def isPrefixOfChars : List Char → List Char → Bool
  | [], _ => true
  | _ :: _, [] => false
  | a :: as, b :: bs => a = b && isPrefixOfChars as bs

/-- Leftmost-occurrence search: find the first position where `pat` occurs and
return the characters after it, as `RegExp.exec` does for a literal pattern. -/
def findCaptureChars (pat : List Char) : List Char → Option (List Char)
  | [] => none
  | c :: rest =>
    if isPrefixOfChars pat (c :: rest) then some (List.drop pat.length (c :: rest))
    else findCaptureChars pat rest

/-- `identifierRegex.exec(s)` for `/action_network:(.*)/` and the capture
`regexMatch[1]`: the text after the leftmost occurrence of `action_network:`,
up to the end of the string or the first newline (`.` does not match `\n`);
`none` when the pattern does not occur. -/
def anCapture (s : String) : Option String :=
  match findCaptureChars "action_network:".data s.data with
  | some cs => some (String.mk (cs.takeWhile (fun c => c ≠ '\n')))
  | none => none

/-- The `(thing.identifiers || []).some(...)` scan: the capture of the first
entry on which the regex matches (even when that capture is empty — `.some`
stops there), `none` when no entry matches. -/
def firstIdentifierCapture : List String → Option String
  | [] => none
  | s :: rest =>
    match anCapture s with
    | some capture => some capture
    | none => firstIdentifierCapture rest

/-- JavaScript truthiness of a possibly-absent string: `undefined` and `""`
are falsy. -/
def truthy : Option String → Bool
  | none => false
  | some s => !(s == "")

/-- Template interpolation of a possibly-absent string. -/
def jsTemplateStr : Option String → String
  | none => "undefined"
  | some s => s

/-- The JavaScript expression `a || b` rendered through a template string. -/
def jsOrStr (a b : Option String) : String :=
  if truthy a then jsTemplateStr a else jsTemplateStr b

/-- The per-record body of the `fetched.forEach` loop in `getContactLists`:
scan the identifiers, and unless `!identifier || !thing.name`, push
`{ name: thing.name || thing.title, identifier }`. -/
def listChoiceOf (thing : RawList) : Option ListChoice :=
  if truthy (firstIdentifierCapture thing.identifiers) && truthy thing.name then
    some { name := jsOrStr thing.name thing.title
           identifier := jsTemplateStr (firstIdentifierCapture thing.identifiers) }
  else none

/-- `getContactLists(organization)`: fetch all pages of `lists` (endpoint and
extract key are both `"lists"`) and map each record through the identifier
scan, dropping unusable records. -/
def getContactLists (fetch : String → Nat → Except String (PageBody RawList)) :
    Except String (List ListChoice) :=
  match (getActionNetworkPages fetch "lists" "lists").2 with
  | .error e => .error e
  | .ok fetched => .ok (fetched.filterMap listChoiceOf)

/-- One entry of a person's `postal_addresses`. -/
structure PostalAddress where
  postal_code : String
deriving DecidableEq, Repr

/-- A raw person record: names, the `custom_fields` object (association list)
and the `postal_addresses` array. -/
structure Person where
  given_name : String
  family_name : String
  custom_fields : List (String × String) := []
  postal_addresses : List PostalAddress := []
deriving DecidableEq, Repr

/-- A `campaign_contact` row as built by `makeContact`. -/
structure Contact where
  first_name : String
  last_name : String
  cell : String
  zip : String
  timezone_offset : Int
  message_status : String
  campaign_id : Nat
deriving DecidableEq, Repr

/-- `makeContact(person, campaignId)`: throws when `"Phone"` is not a key of
`custom_fields` or `postal_addresses` is empty; otherwise builds the contact
row, using the first postal address's `postal_code` for `zip` and as the input
of the external `getTimezoneByZip` lookup (passed here as `tz`). -/
def makeContact (tz : String → Int) (person : Person) (campaignId : Nat) :
    Except String Contact :=
  match person.custom_fields.lookup "Phone" with
  | none => .error "Contact missing Phone field"
  | some phone =>
    match person.postal_addresses with
    | [] => .error "Contact missing postal address"
    | firstAddress :: _ =>
      .ok { first_name := person.given_name
            last_name := person.family_name
            cell := "+1" ++ phone
            zip := firstAddress.postal_code
            timezone_offset := tz firstAddress.postal_code
            message_status := "needsMessage"
            campaign_id := campaignId }

/-- An item of a `lists/<id>/items` page; `person_id` models the presence and
value of the `"action_network:person_id"` key. -/
structure ListItem where
  person_id : Option String := none
deriving DecidableEq, Repr

/-- The module's external collaborators for a contact load: the HTTP fetch of
item pages, the HTTP fetch of one person (`getPerson`), and the external
`getTimezoneByZip` lookup. -/
structure AnEnv where
  fetchItems : String → Nat → Except String (PageBody ListItem)
  fetchPerson : String → Except String Person
  tz : String → Int

/-- `getPerson(organization, identifier)`: one GET of `people/<identifier>`;
a transport failure is logged and re-thrown. -/
def getPerson (env : AnEnv) (identifier : String) : Except String Person :=
  env.fetchPerson identifier

/-- One iteration of the `for (const item of items)` loop of
`getContactsFromList`: an item without an `"action_network:person_id"` key is
skipped without any fetch; otherwise the person is fetched and mapped, and the
surrounding `try { ... } catch {}` swallows any failure of either step, so a
failing item contributes nothing. -/
def itemContact (env : AnEnv) (campaignId : Nat) (item : ListItem) : Option Contact :=
  match item.person_id with
  | none => none
  | some personId =>
    match (getPerson env personId).bind (fun p => makeContact env.tz p campaignId) with
    | .ok contact => some contact
    | .error _ => none

/-- The whole `for (const item of items)` loop: contacts of the successful
items, pushed in item order. -/
def collectPeople (env : AnEnv) (campaignId : Nat) (items : List ListItem) : List Contact :=
  items.filterMap (itemContact env campaignId)

/-- `getContactsFromList(organization, campaignId, listIdentifier)`: fetch all
pages of `lists/<listIdentifier>/items` with extract key `"items"` (note the
two differ), then run the per-item person loop.  A pager failure propagates. -/
def getContactsFromList (env : AnEnv) (campaignId : Nat) (listIdentifier : String) :
    Except String (List Contact) :=
  match (getActionNetworkPages env.fetchItems
      ("lists/" ++ listIdentifier ++ "/items") "items").2 with
  | .error e => .error e
  | .ok items => .ok (collectPeople env campaignId items)

/-- From `defaults.CACHE_TTL = 1800`. -/
def defaults_CACHE_TTL : Nat := 1800

/-- The content of the serialized `data` string returned by
`getClientChoiceData`: either `{ items: [...] }` or `{ error: "..." }`. -/
inductive ChoicePayload where
| items : List ListChoice → ChoicePayload
| error : String → ChoicePayload
deriving DecidableEq, Repr

/-- The return value of `getClientChoiceData`. -/
structure ChoiceData where
  data : ChoicePayload
  expiresSeconds : Option Nat := none
deriving DecidableEq, Repr

/-- `Number(getConfig(CACHE_TTL, organization)) || defaults.CACHE_TTL`: an
absent or zero (falsy) configured TTL falls back to the default. -/
def ttlOf (cacheTTL : Option Nat) : Nat :=
  match cacheTTL with
  | some n => if n = 0 then defaults_CACHE_TTL else n
  | none => defaults_CACHE_TTL

/-- `getClientChoiceData(organization, campaign, user)`: the whole body is in
`try { ... } catch`, so the function is total — on success the serialized
choices with the configured TTL, on any upstream failure the fixed error
payload (with no `expiresSeconds`). -/
def getClientChoiceData (fetch : String → Nat → Except String (PageBody RawList))
    (cacheTTL : Option Nat) : ChoiceData :=
  match getContactLists fetch with
  | .ok toReturn => { data := .items toReturn, expiresSeconds := some (ttlOf cacheTTL) }
  | .error _ => { data := .error "Failed to load choices from ActionNetwork" }

/-- The parsed job payload `JSON.parse(job.payload)`. -/
structure Payload where
  listIdentifier : String
  requestContactCount : Nat
deriving DecidableEq, Repr

/-- A contact-load job. -/
structure Job where
  campaign_id : Nat
  payload : Payload
deriving DecidableEq, Repr

/-- The arguments the module passes to the host's `completeContactLoad`
callback (an external collaborator): `String(requestContactCount)` and the
serialized `{ finalCount }`, modelled by their numeric contents. -/
structure LoadReport where
  requestContactCount : Nat
  finalCount : Nat
deriving DecidableEq, Repr

/-- `processContactLoad(job, maxContacts, organization)` acting on the
`campaign_contact` store (a list of rows): first the knex `delete` of all rows
of the job's campaign, then the fetch/map pipeline, then `batchInsert` of the
resulting rows (chunks of 100, net effect an append).  The pair returned is
the store after the run and either the completion report or the propagated
error; on error the deletion has already been committed (`maxContacts` is
unused — its enforcement is a TODO in the source). -/
def processContactLoad (env : AnEnv) (job : Job) (maxContacts : Nat)
    (store : List Contact) : List Contact × Except String LoadReport :=
  let campaignId := job.campaign_id
  let store1 := store.filter (fun c => !(c.campaign_id == campaignId))
  match getContactsFromList env campaignId job.payload.listIdentifier with
  | .error e => (store1, .error e)
  | .ok actionNetworkContacts =>
    (store1 ++ actionNetworkContacts,
      .ok { requestContactCount := job.payload.requestContactCount
            finalCount := actionNetworkContacts.length })

/-! ### Spec-side definitions, for comparison with the code

The following definitions follow the words of the specification (not the
source); each is used only to compare a claimed behaviour with the embedded
code. -/

/-- Spec-modelled batching for claim C5: "fixed-size batches whose size equals
the requests-per-window limit minus the one already-issued first-page
request", i.e. slices of size `REQUESTS_PER_SECOND - 1 = 3`. -/
def specChunksOf3 : List β → List (List β)
  | [] => []
  | [a] => [[a]]
  | [a, b] => [[a, b]]
  | a :: b :: c :: rest => [a, b, c] :: specChunksOf3 rest

/-- The number of work units remaining from a batch onwards. -/
def chunkRemaining (chunks : List (List β)) : Nat :=
  (chunks.map List.length).sum

/-- Spec-modelled wait policy for claim C6: before each batch, wait exactly
when the work still remaining exceeds what fits in one request window of size
`window`. -/
def specWaitFlags (window : Nat) : List (List β) → List Bool
  | [] => []
  | c :: rest => decide (chunkRemaining (c :: rest) > window) :: specWaitFlags window rest

/-- Spec-modelled list mapping for claim C7: a record with a non-empty name
and some identifier entry matching `action_network:<x>` (first matching entry
used) yields exactly one `{name, identifier: x}` output; other records are
dropped. -/
def specListMapper (things : List RawList) : List ListChoice :=
  things.filterMap (fun thing =>
    match firstIdentifierCapture thing.identifiers, thing.name with
    | some x, some n => if n = "" then none else some ⟨n, x⟩
    | _, _ => none)

/-! ### Concrete fixtures used by witnesses and counterexamples -/

/-- A fetch oracle serving a fixed page array for one endpoint; anything else
is a transport error. -/
def pagesFetch (endpoint : String) (pages : List (PageBody α)) :
    String → Nat → Except String (PageBody α) :=
  fun item page =>
    if item = endpoint then
      match pages.get? (page - 1) with
      | some body => .ok body
      | none => .error "HTTP 404"
    else .error "HTTP 404"

/-- A `lists` page body carrying no records, reporting `n` total pages. -/
def mkListsBody (n : Nat) : PageBody RawList :=
  { total_pages := some n, embedded := [("osdi:lists", [])] }

/-- A single-page `lists` body carrying the given records. -/
def listsBody1 (ls : List RawList) : PageBody RawList :=
  { total_pages := some 1, embedded := [("osdi:lists", ls)] }

/-- A `lists` oracle with 6 pages (claim C5). -/
def fetchLists6 : String → Nat → Except String (PageBody RawList) :=
  pagesFetch "lists" (List.replicate 6 (mkListsBody 6))

/-- A `lists` oracle with 8 pages (claim C6). -/
def fetchLists8 : String → Nat → Except String (PageBody RawList) :=
  pagesFetch "lists" (List.replicate 8 (mkListsBody 8))

/-- A `lists` oracle whose first page reports 2 total pages but whose second
page is a transport error (claim C3, pager part). -/
def fetchLists2Broken : String → Nat → Except String (PageBody RawList) :=
  pagesFetch "lists" [mkListsBody 2]

/-- The endpoint of the items of list `L1`. -/
def itemsEndpointL1 : String := "lists/L1/items"

/-- An items page body reporting 2 total pages and carrying one item. -/
def itemsBody2 (it : ListItem) : PageBody ListItem :=
  { total_pages := some 2, embedded := [("osdi:items", [it])] }

/-- A single-page items body carrying the given items. -/
def itemsBody1 (its : List ListItem) : PageBody ListItem :=
  { total_pages := some 1, embedded := [("osdi:items", its)] }

/-- A two-page items oracle for list `L1` (claim C2). -/
def fetchItems2 : String → Nat → Except String (PageBody ListItem) :=
  pagesFetch itemsEndpointL1 [itemsBody2 ⟨some "p1"⟩, itemsBody2 ⟨some "p2"⟩]

/-- A list record whose only identifier entry has an empty capture
(claim C7 counterexample). -/
def thingEmptyCapture : RawList :=
  { name := some "L", identifiers := ["action_network:"] }

/-- A well-formed list record (claim C7 witness). -/
def thingGood : RawList :=
  { name := some "My List", title := some "T"
    identifiers := ["foo", "action_network:abc123"] }

/-- `lists` oracle serving one page with the empty-capture record. -/
def fetchListsEmptyCapture : String → Nat → Except String (PageBody RawList) :=
  pagesFetch "lists" [listsBody1 [thingEmptyCapture]]

/-- `lists` oracle serving one page with the well-formed record. -/
def fetchListsGood : String → Nat → Except String (PageBody RawList) :=
  pagesFetch "lists" [listsBody1 [thingGood]]

/-- A fixed timezone lookup used by the concrete environments. -/
def tz0 : String → Int := fun _ => -5

/-- The spec's example person p1. -/
def personGood : Person :=
  { given_name := "A", family_name := "B"
    custom_fields := [("Phone", "2135551212")]
    postal_addresses := [⟨"10011"⟩] }

/-- A person lacking the `Phone` custom field (claim C4). -/
def personNoPhone : Person :=
  { given_name := "C", family_name := "D"
    custom_fields := [("Email", "c@d.e")]
    postal_addresses := [⟨"02101"⟩] }

/-- An item referencing the fetchable person p1. -/
def itemP1 : ListItem := ⟨some "p1"⟩

/-- An item referencing a person whose fetch fails. -/
def itemPBad : ListItem := ⟨some "pbad"⟩

/-- An item referencing the phone-less person p3. -/
def itemP3 : ListItem := ⟨some "p3"⟩

/-- Person oracle: p1 resolves to the example person, p3 to the phone-less
person, anything else is a transport error. -/
def fetchPerson0 : String → Except String Person :=
  fun pid =>
    if pid = "p1" then .ok personGood
    else if pid = "p3" then .ok personNoPhone
    else .error "Error retrieving person from ActionNetwork"

/-- Environment for a one-page, one-person load of list `L1`. -/
def envW : AnEnv :=
  { fetchItems := pagesFetch itemsEndpointL1 [itemsBody1 [itemP1]]
    fetchPerson := fetchPerson0
    tz := tz0 }

/-- Environment whose items page for `L1` holds a failing-person item followed
by a good item (claims C3 and C4). -/
def envSkip : AnEnv :=
  { fetchItems := pagesFetch itemsEndpointL1 [itemsBody1 [itemPBad, itemP1]]
    fetchPerson := fetchPerson0
    tz := tz0 }

/-- Environment whose items fetch always fails (claim C10). -/
def envDown : AnEnv :=
  { fetchItems := fun _ _ => .error "network down"
    fetchPerson := fetchPerson0
    tz := tz0 }

/-- The job loading list `L1` into campaign 7. -/
def jobW : Job :=
  { campaign_id := 7, payload := { listIdentifier := "L1", requestContactCount := 1 } }

/-- A pre-existing row of campaign 7. -/
def priorSame : Contact :=
  { first_name := "Old", last_name := "Row", cell := "+10000000000", zip := "00000"
    timezone_offset := 0, message_status := "needsMessage", campaign_id := 7 }

/-- A pre-existing row of a different campaign. -/
def priorOther : Contact :=
  { first_name := "Other", last_name := "Row", cell := "+19999999999", zip := "99999"
    timezone_offset := 0, message_status := "needsMessage", campaign_id := 9 }

/-- A store holding one row of campaign 7 and one of campaign 9. -/
def storeW : List Contact := [priorSame, priorOther]

/-- The contact the example person p1 maps to for campaign 7. -/
def contactP1 : Contact :=
  { first_name := "A", last_name := "B", cell := "+12135551212", zip := "10011"
    timezone_offset := tz0 "10011", message_status := "needsMessage", campaign_id := 7 }

/-! ### Helper lemmas -/

/-- Filtering a list in which the predicate already holds everywhere keeps it. -/
theorem filter_all_true {p : γ → Bool} {l : List γ} (h : ∀ a ∈ l, p a = true) :
    l.filter p = l :=
  List.filter_eq_self.mpr h

/-- Filtering a list in which the predicate fails everywhere empties it. -/
theorem filter_all_false {p : γ → Bool} : ∀ {l : List γ},
    (∀ a ∈ l, p a = false) → l.filter p = []
  | [], _ => rfl
  | a :: t, h => by
    have ha := h a (List.mem_cons_self a t)
    simp only [List.filter_cons, ha, Bool.false_eq_true, if_neg]
    exact filter_all_false (fun b hb => h b (List.mem_cons_of_mem a hb))

/-- `filter` is idempotent. -/
theorem filter_filter_self (p : γ → Bool) (l : List γ) :
    (l.filter p).filter p = l.filter p :=
  filter_all_true (fun a ha => (List.mem_filter.mp ha).2)

/-- Filtering by `p` after keeping only the elements refuting `p` is empty. -/
theorem filter_not_filter (p : γ → Bool) (l : List γ) :
    (l.filter (fun a => !(p a))).filter p = [] :=
  filter_all_false (fun a ha => by
    have := (List.mem_filter.mp ha).2
    simpa using this)

/-- `getPage` succeeds exactly when the underlying fetch does. -/
theorem getPage_isOk (fetch : String → Nat → Except String (PageBody α))
    (it : String) (pg : Nat) : (getPage fetch it pg).isOk = (fetch it pg).isOk := by
  unfold getPage
  cases fetch it pg <;> rfl

/-- If the join of a tranche succeeded, every fetch of the tranche did. -/
theorem fetchAll_ok_fetch (fetch : String → Nat → Except String (PageBody α)) :
    ∀ {l : List (String × Nat)} {rs : List (PageResult α)},
      fetchAll fetch l = .ok rs → ∀ p ∈ l, (fetch p.1 p.2).isOk = true
  | [], _, _, p, hp => absurd hp (List.not_mem_nil p)
  | (it, pg) :: rest, rs, h, p, hp => by
    unfold fetchAll at h
    split at h
    · exact absurd h (by simp)
    · rename_i r hr
      split at h
      · exact absurd h (by simp)
      · rename_i rs2 hrs
        rcases List.mem_cons.mp hp with hp1 | hp2
        · subst hp1
          have : (getPage fetch it pg).isOk = true := by rw [hr]; rfl
          rwa [getPage_isOk] at this
        · exact fetchAll_ok_fetch fetch hrs p hp2

/-- Splitting the work queue into tranches of four loses and reorders nothing. -/
theorem chunksOf4_flatten : ∀ l : List γ, (chunksOf4 l).flatten = l
  | [] => rfl
  | [_] => rfl
  | [_, _] => rfl
  | [_, _, _] => rfl
  | a :: b :: c :: d :: rest => by
    simp only [chunksOf4, List.flatten_cons]
    simp [chunksOf4_flatten rest]

/-- A successful batch loop visits exactly the planned tranches: its trace
batches are the tranches in order, a wait precedes each batch exactly when the
loop's constant wait condition holds, and every planned fetch succeeded. -/
theorem runTranches_ok (fetch : String → Nat → Except String (PageBody α)) (doWait : Bool) :
    ∀ {cs : List (List (String × Nat))} {responses r : Responses α},
      (runTranches fetch doWait responses cs).2 = .ok r →
      batchesOf (runTranches fetch doWait responses cs).1 = cs ∧
      waitFlags (runTranches fetch doWait responses cs).1 = cs.map (fun _ => doWait) ∧
      ∀ c ∈ cs, ∀ p ∈ c, (fetch p.1 p.2).isOk = true
  | [], _, _, _ => ⟨rfl, rfl, fun c hc => absurd hc (List.not_mem_nil c)⟩
  | tranche :: rest, responses, r, h => by
    rw [runTranches] at h ⊢
    split at h
    · exact absurd h (by simp)
    · rename_i results hf
      split at h
      · exact absurd h (by simp)
      · rename_i responses2 hp
        simp only at h
        obtain ⟨hb, hw, hok⟩ := runTranches_ok fetch doWait h
        simp only [hf, hp]
        refine ⟨?_, ?_, ?_⟩
        · simp only [batchesOf] at hb ⊢
          cases doWait <;> simp [hb]
        · cases doWait <;> simp [waitFlags, hw]
        · intro c hc p hpc
          rcases List.mem_cons.mp hc with h1 | h2
          · subst h1
            exact fetchAll_ok_fetch fetch hf p hpc
          · exact hok c h2 p hpc

/-- Every contact built by `makeContact` carries the given campaign id. -/
theorem makeContact_campaign {tz : String → Int} {person : Person} {campaignId : Nat}
    {c : Contact} (h : makeContact tz person campaignId = .ok c) :
    c.campaign_id = campaignId := by
  unfold makeContact at h
  split at h
  · exact absurd h (by simp)
  · split at h
    · exact absurd h (by simp)
    · simp only [Except.ok.injEq] at h
      subst h
      rfl

/-- Every contact produced by one loop iteration carries the campaign id. -/
theorem itemContact_campaign {env : AnEnv} {campaignId : Nat} {item : ListItem}
    {c : Contact} (h : itemContact env campaignId item = some c) :
    c.campaign_id = campaignId := by
  unfold itemContact at h
  split at h
  · exact absurd h (by simp)
  · rename_i personId hpid
    split at h
    · rename_i contact hbind
      simp only [Option.some.injEq] at h
      subst h
      cases hgp : getPerson env personId with
      | error e => rw [hgp] at hbind; exact absurd hbind (by simp [Except.bind])
      | ok p =>
        rw [hgp] at hbind
        simp only [Except.bind] at hbind
        exact makeContact_campaign hbind
    · exact absurd h (by simp)

/-- Every contact accumulated by the per-item loop carries the campaign id. -/
theorem collectPeople_campaign (env : AnEnv) (campaignId : Nat)
    {items : List ListItem} {c : Contact}
    (hc : c ∈ collectPeople env campaignId items) : c.campaign_id = campaignId := by
  unfold collectPeople at hc
  obtain ⟨item, _, hi⟩ := List.mem_filterMap.mp hc
  exact itemContact_campaign hi

/-- An item whose person fetch-and-map fails yields no contact. -/
theorem itemContact_none {env : AnEnv} {campaignId : Nat} {item : ListItem}
    {personId : String} (h1 : item.person_id = some personId)
    (h2 : ((getPerson env personId).bind
        (fun p => makeContact env.tz p campaignId)).isOk = false) :
    itemContact env campaignId item = none := by
  cases hb : (getPerson env personId).bind (fun p => makeContact env.tz p campaignId) with
  | ok contact => rw [hb] at h2; simp [Except.isOk, Except.toBool] at h2
  | error e => simp [itemContact, h1, hb]

/-- An item yielding no contact contributes nothing: the loop's result with it
present equals the result with it removed. -/
theorem collectPeople_skip {env : AnEnv} {campaignId : Nat} {item : ListItem}
    (h : itemContact env campaignId item = none) (pre post : List ListItem) :
    collectPeople env campaignId (pre ++ item :: post)
      = collectPeople env campaignId (pre ++ post) := by
  unfold collectPeople
  simp [List.filterMap_append, List.filterMap_cons, h]

/-- Contacts returned by `getContactsFromList` all carry the campaign id. -/
theorem getContactsFromList_campaign {env : AnEnv} {campaignId : Nat}
    {listIdentifier : String} {cs : List Contact}
    (h : getContactsFromList env campaignId listIdentifier = .ok cs) :
    ∀ c ∈ cs, c.campaign_id = campaignId := by
  unfold getContactsFromList at h
  split at h
  · exact absurd h (by simp)
  · simp only [Except.ok.injEq] at h
    subst h
    intro c hc
    exact collectPeople_campaign env campaignId hc

/-- Pages `2 ≤ j ≤ n` are in the work queue. -/
theorem mem_pageQueue {endpoint : String} {n j : Nat} (hj1 : 2 ≤ j) (hj2 : j ≤ n) :
    (endpoint, j) ∈ pageQueue endpoint n := by
  unfold pageQueue
  refine List.mem_map.mpr ⟨j, ?_, rfl⟩
  rw [List.mem_range'_1]
  omega

/-- An empty work queue for zero or one total pages. -/
theorem pageQueue_nil {endpoint : String} {n : Nat} (h : n ≤ 1) :
    pageQueue endpoint n = [] := by
  have h0 : n - 1 = 0 := by omega
  simp [pageQueue, h0]

/-- Structure of a successful pager run whose first page reported `body`: the
issued batches are the first-page request followed by the four-sized tranches
of the work queue, a wait precedes every tranche exactly when the whole queue
exceeds `REQUESTS_PER_SECOND - 1` requests, and every queued page fetch
succeeded. -/
theorem getActionNetworkPages_ok (fetch : String → Nat → Except String (PageBody α))
    (endpoint extractKey : String) {body : PageBody α} {out : List α}
    (h1 : fetch endpoint 1 = .ok body)
    (h2 : (getActionNetworkPages fetch endpoint extractKey).2 = .ok out) :
    batchesOf (getActionNetworkPages fetch endpoint extractKey).1
      = [(endpoint, 1)] :: chunksOf4 (pageQueue endpoint (body.total_pages.getD 0)) ∧
    waitFlags (getActionNetworkPages fetch endpoint extractKey).1
      = false :: (chunksOf4 (pageQueue endpoint (body.total_pages.getD 0))).map
          (fun _ => decide ((pageQueue endpoint (body.total_pages.getD 0)).length
              > REQUESTS_PER_SECOND - 1)) ∧
    ∀ p ∈ pageQueue endpoint (body.total_pages.getD 0), (fetch p.1 p.2).isOk = true := by
  have hg : getPage fetch endpoint 1 = .ok ⟨endpoint, 1, body⟩ := by
    unfold getPage
    rw [h1]
  unfold getActionNetworkPages at h2 ⊢
  rw [hg] at h2 ⊢
  simp only at h2 ⊢
  cases hr : (runTranches fetch
      (decide (REQUESTS_PER_SECOND - 1 < (pageQueue endpoint (body.total_pages.getD 0)).length))
      [(extractKey, [body])]
      (chunksOf4 (pageQueue endpoint (body.total_pages.getD 0)))).2 with
  | error e =>
    rw [hr] at h2
    exact absurd h2 (by simp)
  | ok responses2 =>
    obtain ⟨hb, hw, hok⟩ := runTranches_ok fetch _ hr
    refine ⟨?_, ?_, ?_⟩
    · simp only [batchesOf] at hb ⊢
      simp [hb]
    · simp [waitFlags, hw]
    · intro p hp
      have hp2 : p ∈ (chunksOf4 (pageQueue endpoint (body.total_pages.getD 0))).flatten := by
        rw [chunksOf4_flatten]
        exact hp
      obtain ⟨c, hc, hpc⟩ := List.mem_flatten.mp hp2
      exact hok c hc p hpc

/-- A failing first-page fetch propagates out of the pager unchanged. -/
theorem getActionNetworkPages_err1 (fetch : String → Nat → Except String (PageBody α))
    (endpoint extractKey e : String) (h : fetch endpoint 1 = .error e) :
    (getActionNetworkPages fetch endpoint extractKey).2 = .error e := by
  have hg : getPage fetch endpoint 1 = .error e := by
    unfold getPage
    rw [h]
  unfold getActionNetworkPages
  rw [hg]

/-! ### Claims -/

/-- C2: for a first page reporting `total_pages = N ≥ 1` the claim says the
pager issues exactly N requests and returns the concatenated items — but with
`extractKey ≠ endpoint` (the situation of every `lists/<id>/items` fetch) and
`N = 2`, the code issues both page requests and then fails with a TypeError:
the batch loop pushes onto `responses[endpoint]`, a key that was never
initialized (only `responses[extractKey]` was), so no items are returned. -/
theorem C2_items_pager_typeerror :
    (getActionNetworkPages fetchItems2 itemsEndpointL1 "items").2
      = .error "TypeError: undefined push" ∧
    batchesOf (getActionNetworkPages fetchItems2 itemsEndpointL1 "items").1
      = [[(itemsEndpointL1, 1)], [(itemsEndpointL1, 2)]] ∧
    (fetchItems2 itemsEndpointL1 1).isOk = true ∧
    (fetchItems2 itemsEndpointL1 2).isOk = true :=
  ⟨rfl, rfl, rfl, rfl⟩

/-- C3 (counterexample): a transport failure on a person fetch does not abort
the bulk conversion — here the fetch of person `pbad` fails, yet
`getContactsFromList` returns a partial contact list (the other person's
contact) instead of propagating the error. -/
theorem C3_counterexample :
    itemPBad.person_id = some "pbad" ∧
    (envSkip.fetchPerson "pbad").isOk = false ∧
    (getActionNetworkPages envSkip.fetchItems itemsEndpointL1 "items").2
      = .ok [itemPBad, itemP1] ∧
    getContactsFromList envSkip 7 "L1" = .ok [contactP1] :=
  ⟨rfl, rfl, rfl, rfl⟩

/-- C3 (amended): a transport failure on any single page fetch aborts the
whole pager call (a first-page failure propagates unchanged; a failure on any
needed later page makes the call fail), whereas a transport failure on a
person fetch during the bulk list-to-contacts conversion is swallowed: that
person is skipped and the conversion continues over the remaining items. -/
theorem C3_amended_abort_and_skip :
    (∀ (α : Type) (fetch : String → Nat → Except String (PageBody α))
        (endpoint extractKey e : String),
        fetch endpoint 1 = .error e →
        (getActionNetworkPages fetch endpoint extractKey).2 = .error e) ∧
    (∀ (α : Type) (fetch : String → Nat → Except String (PageBody α))
        (endpoint extractKey : String) (body : PageBody α) (j : Nat),
        fetch endpoint 1 = .ok body → 2 ≤ j → j ≤ body.total_pages.getD 0 →
        (fetch endpoint j).isOk = false →
        ((getActionNetworkPages fetch endpoint extractKey).2).isOk = false) ∧
    (∀ (env : AnEnv) (campaignId : Nat) (item : ListItem) (personId : String)
        (pre post : List ListItem),
        item.person_id = some personId →
        (env.fetchPerson personId).isOk = false →
        collectPeople env campaignId (pre ++ item :: post)
          = collectPeople env campaignId (pre ++ post)) := by
  refine ⟨?_, ?_, ?_⟩
  · intro α fetch endpoint extractKey e h
    exact getActionNetworkPages_err1 fetch endpoint extractKey e h
  · intro α fetch endpoint extractKey body j h1 hj1 hj2 hfail
    cases hres : (getActionNetworkPages fetch endpoint extractKey).2 with
    | error e => rfl
    | ok out =>
      have hall := (getActionNetworkPages_ok fetch endpoint extractKey h1 hres).2.2
      have hone := hall (endpoint, j) (mem_pageQueue hj1 hj2)
      rw [hfail] at hone
      exact absurd hone (by simp)
  · intro env campaignId item personId pre post h1 hfail
    have hbind : ((getPerson env personId).bind
        (fun p => makeContact env.tz p campaignId)).isOk = false := by
      cases henv : env.fetchPerson personId with
      | ok p => rw [henv] at hfail; simp [Except.isOk, Except.toBool] at hfail
      | error e =>
        unfold getPerson
        rw [henv]
        rfl
    exact collectPeople_skip (itemContact_none h1 hbind) pre post

/-- C3 (witness): concrete aborting page failure and concrete skipped person
failure. -/
theorem C3_witness :
    fetchLists2Broken "lists" 1 = .ok (mkListsBody 2) ∧
    (fetchLists2Broken "lists" 2).isOk = false ∧
    ((getActionNetworkPages fetchLists2Broken "lists" "lists").2).isOk = false ∧
    itemPBad.person_id = some "pbad" ∧
    (envSkip.fetchPerson "pbad").isOk = false ∧
    collectPeople envSkip 7 [itemPBad, itemP1] = collectPeople envSkip 7 [itemP1] := by
  refine ⟨rfl, rfl, ?_, rfl, rfl, ?_⟩
  · exact C3_amended_abort_and_skip.2.1 RawList fetchLists2Broken "lists" "lists"
      (mkListsBody 2) 2 rfl (by decide) (by decide) rfl
  · exact C3_amended_abort_and_skip.2.2 envSkip 7 itemPBad "pbad" [] [itemP1] rfl rfl

/-- C4: a fetched person lacking the `Phone` custom field or having zero
postal addresses fails `makeContact`, is excluded from the contact set built
by the per-item loop, and the conversion continues over the other items. -/
theorem C4_bad_person_excluded (env : AnEnv) (campaignId : Nat) (item : ListItem)
    (personId : String) (person : Person)
    (h1 : item.person_id = some personId)
    (h2 : env.fetchPerson personId = .ok person)
    (h3 : person.custom_fields.lookup "Phone" = none ∨ person.postal_addresses = []) :
    (makeContact env.tz person campaignId).isOk = false ∧
    itemContact env campaignId item = none ∧
    ∀ pre post, collectPeople env campaignId (pre ++ item :: post)
        = collectPeople env campaignId (pre ++ post) := by
  have hmk : (makeContact env.tz person campaignId).isOk = false := by
    rcases h3 with h3 | h3
    · simp [makeContact, h3, Except.isOk, Except.toBool]
    · cases hl : person.custom_fields.lookup "Phone" with
      | none => simp [makeContact, hl, Except.isOk, Except.toBool]
      | some phone => simp [makeContact, hl, h3, Except.isOk, Except.toBool]
  have hnone : itemContact env campaignId item = none := by
    refine itemContact_none h1 ?_
    unfold getPerson
    rw [h2]
    simpa [Except.bind] using hmk
  exact ⟨hmk, hnone, fun pre post => collectPeople_skip hnone pre post⟩

/-- C4 (witness): the phone-less person p3 is excluded and the loop continues. -/
theorem C4_witness :
    itemP3.person_id = some "p3" ∧
    envSkip.fetchPerson "p3" = .ok personNoPhone ∧
    personNoPhone.custom_fields.lookup "Phone" = none ∧
    (makeContact envSkip.tz personNoPhone 7).isOk = false ∧
    itemContact envSkip 7 itemP3 = none ∧
    collectPeople envSkip 7 [itemP3, itemP1] = collectPeople envSkip 7 [itemP1] := by
  have h := C4_bad_person_excluded envSkip 7 itemP3 "p3" personNoPhone rfl rfl (Or.inl rfl)
  exact ⟨rfl, rfl, rfl, h.1, h.2.1, h.2.2 [] [itemP1]⟩

/-- C5 (counterexample): with 6 total pages the claim's batching (size
`REQUESTS_PER_SECOND - 1 = 3`) predicts tranches `[2,3,4],[5,6]`, but the code
slices the queue in tranches of `REQUESTS_PER_SECOND = 4`: `[2,3,4,5],[6]`. -/
theorem C5_counterexample :
    (batchesOf (getActionNetworkPages fetchLists6 "lists" "lists").1).drop 1
      = [[("lists", 2), ("lists", 3), ("lists", 4), ("lists", 5)], [("lists", 6)]] ∧
    (batchesOf (getActionNetworkPages fetchLists6 "lists" "lists").1).drop 1
      ≠ specChunksOf3 (pageQueue "lists" 6) :=
  ⟨rfl, by decide⟩

/-- C5 (amended): the remaining pages are processed in fixed-size batches of
`REQUESTS_PER_SECOND = 4` (not 4 − 1), sliced from the queue in order, each
batch issued concurrently (one `batch` trace event). -/
theorem C5_amended_batches (fetch : String → Nat → Except String (PageBody α))
    (endpoint extractKey : String) (body : PageBody α) (out : List α)
    (h1 : fetch endpoint 1 = .ok body)
    (h2 : (getActionNetworkPages fetch endpoint extractKey).2 = .ok out) :
    batchesOf (getActionNetworkPages fetch endpoint extractKey).1
      = [(endpoint, 1)] :: chunksOf4 (pageQueue endpoint (body.total_pages.getD 0)) :=
  (getActionNetworkPages_ok fetch endpoint extractKey h1 h2).1

/-- C5 (witness): the 6-page run, with its concrete batch structure. -/
theorem C5_witness :
    fetchLists6 "lists" 1 = .ok (mkListsBody 6) ∧
    (getActionNetworkPages fetchLists6 "lists" "lists").2 = .ok [] ∧
    batchesOf (getActionNetworkPages fetchLists6 "lists" "lists").1
      = [("lists", 1)] :: chunksOf4 (pageQueue "lists" 6) :=
  ⟨rfl, rfl, C5_amended_batches fetchLists6 "lists" "lists" (mkListsBody 6) [] rfl rfl⟩

/-- C6 (counterexample): with 8 total pages the code waits before both
tranches (`[true, true]` after the first page), while the claimed policy
"wait exactly when more work remains than fits in one window" predicts
`[true, false]` for a window of 3 as well as for a window of 4 — before the
second tranche only 3 pages remain. -/
theorem C6_counterexample :
    (waitFlags (getActionNetworkPages fetchLists8 "lists" "lists").1).drop 1
      = [true, true] ∧
    (waitFlags (getActionNetworkPages fetchLists8 "lists" "lists").1).drop 1
      ≠ specWaitFlags 3 (chunksOf4 (pageQueue "lists" 8)) ∧
    (waitFlags (getActionNetworkPages fetchLists8 "lists" "lists").1).drop 1
      ≠ specWaitFlags 4 (chunksOf4 (pageQueue "lists" 8)) :=
  ⟨rfl, by decide, by decide⟩

/-- C6 (amended): the pager waits before every tranche exactly when the whole
work queue (`total_pages - 1` requests) exceeds `REQUESTS_PER_SECOND - 1 = 3`
— the source evaluates its wait condition on the constant full queue length,
not on the work remaining; in particular, when `total_pages` is 1 (or 0 or
absent) the trace is the single first-page request: no wait and no batch
cycle ever occur. -/
theorem C6_amended_waits (fetch : String → Nat → Except String (PageBody α))
    (endpoint extractKey : String) (body : PageBody α) (out : List α)
    (h1 : fetch endpoint 1 = .ok body)
    (h2 : (getActionNetworkPages fetch endpoint extractKey).2 = .ok out) :
    waitFlags (getActionNetworkPages fetch endpoint extractKey).1
      = false :: (chunksOf4 (pageQueue endpoint (body.total_pages.getD 0))).map
          (fun _ => decide ((pageQueue endpoint (body.total_pages.getD 0)).length
              > REQUESTS_PER_SECOND - 1)) ∧
    (body.total_pages.getD 0 ≤ 1 →
      (getActionNetworkPages fetch endpoint extractKey).1 = [Ev.batch [(endpoint, 1)]]) := by
  refine ⟨(getActionNetworkPages_ok fetch endpoint extractKey h1 h2).2.1, ?_⟩
  intro hle
  have hg : getPage fetch endpoint 1 = .ok ⟨endpoint, 1, body⟩ := by
    unfold getPage
    rw [h1]
  unfold getActionNetworkPages
  rw [hg]
  simp [pageQueue_nil hle, chunksOf4, runTranches]

/-- C6 (witness): a single-page run has no wait and no batch cycle. -/
theorem C6_witness :
    fetchListsGood "lists" 1 = .ok (listsBody1 [thingGood]) ∧
    (getActionNetworkPages fetchListsGood "lists" "lists").2 = .ok [thingGood] ∧
    waitFlags (getActionNetworkPages fetchListsGood "lists" "lists").1 = [false] ∧
    (getActionNetworkPages fetchListsGood "lists" "lists").1
      = [Ev.batch [("lists", 1)]] := by
  have h := C6_amended_waits fetchListsGood "lists" "lists" (listsBody1 [thingGood])
    [thingGood] rfl rfl
  exact ⟨rfl, rfl, h.1, h.2 (by decide)⟩

/-- C7 (counterexample): the record `{name: "L", identifiers:
["action_network:"]}` has a non-empty name and an identifier entry matching
the pattern (with empty `<x>`), so the claim predicts one output entry, but
the code drops it: the empty capture is falsy and the scan already stopped at
that first matching entry. -/
theorem C7_counterexample :
    thingEmptyCapture.name = some "L" ∧
    firstIdentifierCapture thingEmptyCapture.identifiers = some "" ∧
    specListMapper [thingEmptyCapture] = [⟨"L", ""⟩] ∧
    getContactLists fetchListsEmptyCapture = .ok [] ∧
    getContactLists fetchListsEmptyCapture ≠ .ok (specListMapper [thingEmptyCapture]) :=
  ⟨rfl, rfl, rfl, rfl, by decide⟩

/-- C7 (amended): `getContactLists` maps each fetched record through the
identifier scan, and a record yields an output `{name := n, identifier := x}`
exactly when the capture of its first entry containing `action_network:` is
the non-empty `x` and its name is the non-empty `n`; all other records (no
matching entry, empty capture on the first matching entry, or missing/empty
name) are dropped silently. -/
theorem C7_amended_mapping (fetch : String → Nat → Except String (PageBody RawList))
    (things : List RawList)
    (h : (getActionNetworkPages fetch "lists" "lists").2 = .ok things) :
    getContactLists fetch = .ok (things.filterMap listChoiceOf) ∧
    ∀ (thing : RawList) (n x : String),
      listChoiceOf thing = some ⟨n, x⟩ ↔
        (firstIdentifierCapture thing.identifiers = some x ∧ x ≠ "" ∧
          thing.name = some n ∧ n ≠ "") := by
  constructor
  · unfold getContactLists
    rw [h]
  · intro thing n x
    constructor
    · intro hsome
      unfold listChoiceOf at hsome
      split at hsome
      · rename_i hcond
        rw [Bool.and_eq_true] at hcond
        obtain ⟨hid, hname⟩ := hcond
        cases hfc : firstIdentifierCapture thing.identifiers with
        | none => rw [hfc] at hid; simp [truthy] at hid
        | some cap =>
          rw [hfc] at hid hsome
          cases hn : thing.name with
          | none => rw [hn] at hname; simp [truthy] at hname
          | some n0 =>
            rw [hn] at hname hsome
            simp only [truthy] at hid hname
            rw [Bool.not_eq_eq_eq_not, Bool.not_true, beq_eq_false_iff_ne] at hid hname
            simp only [jsOrStr, jsTemplateStr, truthy, Option.some.injEq,
              ListChoice.mk.injEq] at hsome
            rw [if_pos (by simpa using hname)] at hsome
            obtain ⟨hsn, hsx⟩ := hsome
            subst hsn
            subst hsx
            exact ⟨rfl, hid, rfl, hname⟩
      · exact absurd hsome (by simp)
    · intro hconj
      obtain ⟨ha, hx, hc, hn⟩ := hconj
      unfold listChoiceOf
      rw [ha, hc]
      have hxb : ((x == "") = false) := beq_eq_false_iff_ne.mpr hx
      have hnb : ((n == "") = false) := beq_eq_false_iff_ne.mpr hn
      simp [truthy, jsOrStr, jsTemplateStr, hxb, hnb]

/-- C7 (witness): a well-formed record maps to exactly one choice entry. -/
theorem C7_witness :
    (getActionNetworkPages fetchListsGood "lists" "lists").2 = .ok [thingGood] ∧
    getContactLists fetchListsGood = .ok [⟨"My List", "abc123"⟩] ∧
    listChoiceOf thingGood = some ⟨"My List", "abc123"⟩ := by
  have h := C7_amended_mapping fetchListsGood [thingGood] rfl
  refine ⟨rfl, ?_, ?_⟩
  · exact h.1
  · exact (h.2 thingGood "My List" "abc123").mpr ⟨rfl, by decide, rfl, by decide⟩

/-- C8: a person having the `Phone` custom field and at least one postal
address maps to a contact with first_name = given_name, last_name =
family_name, cell = "+1" followed by the Phone value, zip = the first postal
address's postal code (also the timezone lookup input), message_status =
"needsMessage" and campaign_id = the given campaign id. -/
theorem C8_makeContact_fields (tz : String → Int) (person : Person) (campaignId : Nat)
    (phone : String) (firstAddress : PostalAddress) (rest : List PostalAddress)
    (hPhone : person.custom_fields.lookup "Phone" = some phone)
    (hAddr : person.postal_addresses = firstAddress :: rest) :
    makeContact tz person campaignId =
      .ok { first_name := person.given_name
            last_name := person.family_name
            cell := "+1" ++ phone
            zip := firstAddress.postal_code
            timezone_offset := tz firstAddress.postal_code
            message_status := "needsMessage"
            campaign_id := campaignId } := by
  unfold makeContact
  rw [hPhone, hAddr]

/-- C8 (witness): the spec's example person p1 maps to the stated contact. -/
theorem C8_witness :
    personGood.custom_fields.lookup "Phone" = some "2135551212" ∧
    personGood.postal_addresses = [⟨"10011"⟩] ∧
    makeContact tz0 personGood 7 = .ok contactP1 :=
  ⟨rfl, rfl, C8_makeContact_fields tz0 personGood 7 "2135551212" ⟨"10011"⟩ [] rfl rfl⟩

/-- C9: `getClientChoiceData` is total (the whole body is wrapped in
try/catch): for every fetch outcome it either returns the serialized
`{items}` choices with the configured TTL (default 1800, zero/absent falls
back), or, on any upstream failure, the fixed error payload. -/
theorem C9_choice_data_total (fetch : String → Nat → Except String (PageBody RawList))
    (cacheTTL : Option Nat) :
    (∃ l, getContactLists fetch = .ok l ∧
        getClientChoiceData fetch cacheTTL
          = { data := .items l, expiresSeconds := some (ttlOf cacheTTL) }) ∨
    (∃ e, getContactLists fetch = .error e ∧
        getClientChoiceData fetch cacheTTL
          = { data := .error "Failed to load choices from ActionNetwork"
              expiresSeconds := none }) := by
  cases h : getContactLists fetch with
  | ok l => exact Or.inl ⟨l, rfl, by simp [getClientChoiceData, h]⟩
  | error e => exact Or.inr ⟨e, rfl, by simp [getClientChoiceData, h]⟩

/-- C1: whenever `processContactLoad` completes successfully, the store's rows
for the job's campaign are exactly the contacts mapped from the chosen list's
items (prior rows of that campaign deleted, mapped rows appended), and
re-running it on the resulting store reproduces the same final store and the
same successful report (idempotence). -/
theorem C1_load_replaces_and_idempotent (env : AnEnv) (job : Job) (maxContacts : Nat)
    (store : List Contact) (report : LoadReport)
    (h : (processContactLoad env job maxContacts store).2 = .ok report) :
    ∃ contacts,
      getContactsFromList env job.campaign_id job.payload.listIdentifier = .ok contacts ∧
      (processContactLoad env job maxContacts store).1
        = store.filter (fun c => !(c.campaign_id == job.campaign_id)) ++ contacts ∧
      ((processContactLoad env job maxContacts store).1).filter
          (fun c => c.campaign_id == job.campaign_id) = contacts ∧
      processContactLoad env job maxContacts ((processContactLoad env job maxContacts store).1)
        = ((processContactLoad env job maxContacts store).1, .ok report) := by
  cases hg : getContactsFromList env job.campaign_id job.payload.listIdentifier with
  | error e => simp [processContactLoad, hg] at h
  | ok contacts =>
    have hall : ∀ c ∈ contacts, c.campaign_id = job.campaign_id :=
      getContactsFromList_campaign hg
    have hstep : processContactLoad env job maxContacts store
        = (store.filter (fun c => !(c.campaign_id == job.campaign_id)) ++ contacts,
            .ok { requestContactCount := job.payload.requestContactCount
                  finalCount := contacts.length }) := by
      simp [processContactLoad, hg]
    have hrep : ({ requestContactCount := job.payload.requestContactCount
                   finalCount := contacts.length } : LoadReport) = report := by
      rw [hstep] at h
      simpa using h
    have hcs_eq : contacts.filter (fun c => c.campaign_id == job.campaign_id) = contacts :=
      filter_all_true (fun c hc => by simp [hall c hc])
    have hcs_ne : contacts.filter (fun c => !(c.campaign_id == job.campaign_id)) = [] :=
      filter_all_false (fun c hc => by simp [hall c hc])
    refine ⟨contacts, rfl, ?_, ?_, ?_⟩
    · rw [hstep]
    · rw [hstep]
      simp only [List.filter_append, filter_not_filter, hcs_eq]
      simp
    · rw [hstep]
      simp only [processContactLoad, hg]
      rw [List.filter_append, filter_filter_self, hcs_ne, List.append_nil, hrep]

/-- C1 (witness): the one-person load of list L1 into campaign 7, over a store
holding a stale campaign-7 row and a campaign-9 row. -/
theorem C1_witness :
    (processContactLoad envW jobW 100 storeW).2 = .ok ⟨1, 1⟩ ∧
    (∃ contacts,
      getContactsFromList envW jobW.campaign_id jobW.payload.listIdentifier
        = .ok contacts ∧
      (processContactLoad envW jobW 100 storeW).1
        = storeW.filter (fun c => !(c.campaign_id == jobW.campaign_id)) ++ contacts ∧
      ((processContactLoad envW jobW 100 storeW).1).filter
          (fun c => c.campaign_id == jobW.campaign_id) = contacts ∧
      processContactLoad envW jobW 100 ((processContactLoad envW jobW 100 storeW).1)
        = ((processContactLoad envW jobW 100 storeW).1, .ok ⟨1, 1⟩)) :=
  ⟨rfl, C1_load_replaces_and_idempotent envW jobW 100 storeW ⟨1, 1⟩ rfl⟩

/-- C10: the campaign's rows are deleted before any fetching, so a failing run
(the fetch error propagates) leaves the store with the deletion committed and
nothing inserted: zero rows remain for the job's campaign. -/
theorem C10_failed_load_store (env : AnEnv) (job : Job) (maxContacts : Nat)
    (store : List Contact) (e : String)
    (h : (processContactLoad env job maxContacts store).2 = .error e) :
    getContactsFromList env job.campaign_id job.payload.listIdentifier = .error e ∧
    (processContactLoad env job maxContacts store).1
      = store.filter (fun c => !(c.campaign_id == job.campaign_id)) ∧
    ((processContactLoad env job maxContacts store).1).filter
        (fun c => c.campaign_id == job.campaign_id) = [] := by
  cases hg : getContactsFromList env job.campaign_id job.payload.listIdentifier with
  | ok contacts => simp [processContactLoad, hg] at h
  | error e2 =>
    have he : e2 = e := by simpa [processContactLoad, hg] using h
    subst he
    refine ⟨rfl, ?_, ?_⟩
    · simp [processContactLoad, hg]
    · simp [processContactLoad, hg, filter_not_filter]

/-- C10 (witness): the failing fetch leaves only the other campaign's row. -/
theorem C10_witness :
    (processContactLoad envDown jobW 100 storeW).2 = .error "network down" ∧
    getContactsFromList envDown jobW.campaign_id jobW.payload.listIdentifier
      = .error "network down" ∧
    (processContactLoad envDown jobW 100 storeW).1
      = storeW.filter (fun c => !(c.campaign_id == jobW.campaign_id)) ∧
    ((processContactLoad envDown jobW 100 storeW).1).filter
        (fun c => c.campaign_id == jobW.campaign_id) = [] := by
  have h := C10_failed_load_store envDown jobW 100 storeW "network down" rfl
  exact ⟨rfl, h.1, h.2.1, h.2.2⟩

end AN
